import Mathlib

/-!
Shallow embedding of `src/lib/cloud-watch-event-listener.js` from
strugee/ec2-manager: the CloudWatch event reconciliation handler
(`CloudWatchEventListener.__handler`) together with the helpers it uses
(`missingTags`, the key-name split, the constructor's keyPrefix handling).

Times are modelled as `Int` (milliseconds since the epoch, as JS `Date`
arithmetic produces).  Every potentially-failing I/O collaborator
(state store, EC2 API, tagger) is modelled by a flag or `Except` value in
an `Env` record, and the handler returns both a `Trace` of the calls it
made (commits, rollbacks, writes, metric counts) and its outcome
(`Except HErr Unit`, where `.error` models an exception escaping
`__handler` and `.ok` a normal return).
-/

namespace EC2Manager

/-- A lifecycle notification, after `JSON.parse` of the SQS message body:
`region = body.region`, `id = body.detail['instance-id']`,
`state = body.detail.state`, `generated = new Date(body.time)`. -/
structure Notification where
  region : String
  id : String
  state : String
  generated : Int
  deriving Repr, DecidableEq

/-- A row of the `instances` table as returned by `state.listInstances`.
`lastevent` is `Option Int` because the column may be NULL (JS `null`),
which is falsy in the `dbResponse.lastevent && ...` test. -/
structure InstanceRecord where
  id : String
  region : String
  workertype : Option String
  instancetype : String
  az : String
  imageId : String
  srid : Option String
  launched : Int
  state : String
  lastevent : Option Int
  deriving Repr, DecidableEq

/-- An EC2 instance descriptor as found at
`apiResponse.Reservations[0].Instances[0]`.  `tags` is `Option` because
`obj.Tags` may be absent. -/
structure EC2Instance where
  keyName : String
  instanceType : String
  spotInstanceRequestId : Option String
  az : String
  imageId : String
  launchTime : Int
  tags : Option (List (String × String))
  deriving Repr, DecidableEq

/-- The argument object built for `state.upsertInstance(opts)`. -/
structure UpsertOpts where
  workerType : Option String
  region : String
  az : String
  instanceType : String
  imageId : String
  id : String
  state : String
  launched : Int
  srid : Option String
  lastevent : Int
  deriving Repr, DecidableEq

/-- Failure classes of `runaws(ec2, 'describeInstances', ...)`:
`err.code === 'InvalidInstanceID.NotFound'` versus anything else. -/
inductive ApiErr where
  | notFound
  | other
  deriving Repr, DecidableEq

/-- The exceptions that can escape `__handler` (modulo the best-effort
audit write, whose failure is caught and reported). -/
inductive HErr where
  | assertErr
  | writeErr
  | commitErr
  | apiNotFound
  | apiOther
  | taggerErr
  | upsertErr
  | removeErr
  deriving Repr, DecidableEq

instance : DecidableEq (Except HErr Unit) := fun a b =>
  match a, b with
  | .ok (), .ok () => isTrue rfl
  | .error e, .error f =>
    match decEq e f with
    | isTrue h => isTrue (h ▸ rfl)
    | isFalse h => isFalse fun hc => h (by cases hc; rfl)
  | .ok (), .error _ => isFalse fun hc => Except.noConfusion hc
  | .error _, .ok () => isFalse fun hc => Except.noConfusion hc

/-- The environment one `__handler` call runs in: the configured
`keyPrefix`, the database row for `(region, id)` (zero or one, per the
asserts on `listInstances`), the outcome of the `describeInstances`
call, and a fault flag per fallible I/O step. -/
structure Env where
  keyPrefix : String
  record : Option InstanceRecord
  logEventOk : Bool
  lookupOk : Bool
  writeOk : Bool
  commitAOk : Bool
  api : Except ApiErr EC2Instance
  taggerOk : Bool
  upsertOk : Bool
  removeOk : Bool
  deriving Repr

/-- Trace of the observable calls one `__handler` run makes.
`commits`/`rollbacks` count `commitTransaction`/`rollbackTransaction`
calls on the single transaction opened by `beginTransaction`;
`updateCalls` records the `(state, lastevent)` arguments of each
`updateInstanceState` call; `removeTxnCalls` counts `removeInstance`
calls inside the transaction and `removeCalls` the transactionless one;
`outOfOrder` counts increments of the global out-of-order counter and
`delayMeasured` the value passed to the out-of-order delay measure;
`apiLag` counts increments of the global api-lag counter; `reported`
counts `monitor.reportError` calls. -/
structure Trace where
  reported : Nat := 0
  commits : Nat := 0
  rollbacks : Nat := 0
  updateCalls : List (String × Int) := []
  removeTxnCalls : Nat := 0
  removeCalls : Nat := 0
  upsertCalls : List UpsertOpts := []
  apiCalls : Nat := 0
  tagCalls : Nat := 0
  outOfOrder : Nat := 0
  delayMeasured : Option Int := none
  apiLag : Nat := 0
  deriving Repr, DecidableEq

/-- `missingTags(obj)`: true when no tag with `Key === 'Owner'` is
present (or `obj.Tags` is absent). -/
def missingTags (inst : EC2Instance) : Bool :=
  let hasTag :=
    match inst.tags with
    | some ts => ts.any fun t => t.1 == "Owner"
    | none => false
  !hasTag

/-- JS `str.split(':')` on the character list of the string: splits on
every colon. -/
def splitOnColon : List Char → List (List Char)
  | [] => [[]]
  | c :: rest =>
    let r := splitOnColon rest
    if c = ':' then
      [] :: r
    else
      match r with
      | [] => [[c]]
      | h :: t => (c :: h) :: t

/-- `let [provisionerId, workerType] = instance.KeyName.split(':')`:
the first two fields of the colon-split (each `none` when the split has
too few fields, as JS destructuring yields `undefined`). -/
def parseKeyName (keyName : String) : Option String × Option String :=
  let parts := (splitOnColon keyName.data).map fun l => String.mk l
  (parts.head?, parts.get? 1)

/-- JS truthiness of a possibly-undefined string: `undefined` and the
empty string are falsy. -/
def truthy : Option String → Bool
  | some s => s != ""
  | none => false

/-- `instance.SpotInstanceRequestId || undefined`: an empty string is
coerced to `undefined`. -/
def sridOf (inst : EC2Instance) : Option String :=
  match inst.spotInstanceRequestId with
  | some s => if s = "" then none else some s
  | none => none

/-- `state === 'pending' || state === 'running'`. -/
def pendingOrRunning (s : String) : Bool :=
  s == "pending" || s == "running"

/-- The guard `dbResponse.lastevent && dbResponse.lastevent < generated`:
a NULL `lastevent` is falsy, otherwise the dates compare numerically. -/
def newerEvent : Option Int → Int → Prop
  | some t, g => t < g
  | none, _ => False

instance : (le : Option Int) → (g : Int) → Decidable (newerEvent le g)
  | some t, g => inferInstanceAs (Decidable (t < g))
  | none, _ => isFalse id

/-- `dbResponse.lastevent - generated` with JS coercion: `null` coerces
to `0` in subtraction. -/
def jsDateSub (le : Option Int) (g : Int) : Int :=
  (match le with | some t => t | none => 0) - g

/-- `this.provisionerId = keyPrefix.slice(0, keyPrefix.length - 1)` from
the constructor: the keyPrefix with its trailing colon removed. -/
def provisionerIdOf (keyPrefix : String) : String :=
  keyPrefix.dropRight 1

/-- The `opts` object built in branch B from the notification and the
descriptor: all descriptor fields plus `lastevent = generated`. -/
def upsertOpts (n : Notification) (inst : EC2Instance) : UpsertOpts :=
  { workerType := (parseKeyName inst.keyName).2
    region := n.region
    az := inst.az
    instanceType := inst.instanceType
    imageId := inst.imageId
    id := n.id
    state := n.state
    launched := inst.launchTime
    srid := sridOf inst
    lastevent := n.generated }

/-- The tail of branch B after a successful `describeInstances`: build
`opts` and call `state.upsertInstance(opts)` exactly when `workerType`
is truthy and `provisionerId === this.provisionerId`. -/
def upsertStep (env : Env) (n : Notification) (inst : EC2Instance) (tr : Trace) :
    Trace × Except HErr Unit :=
  let pid := (parseKeyName inst.keyName).1
  let wt := (parseKeyName inst.keyName).2
  if truthy wt ∧ pid = some (provisionerIdOf env.keyPrefix) then
    let tr := { tr with upsertCalls := tr.upsertCalls ++ [upsertOpts n inst] }
    if env.upsertOk then (tr, .ok ()) else (tr, .error .upsertErr)
  else
    (tr, .ok ())

/-- Branch A of `__handler` (`dbResponse` truthy), entered with the
transaction still open. -/
def branchA (env : Env) (n : Notification) (r : InstanceRecord) (tr : Trace) :
    Trace × Except HErr Unit :=
  if newerEvent r.lastevent n.generated then
    if pendingOrRunning n.state then
      let tr := { tr with updateCalls := tr.updateCalls ++ [(n.state, n.generated)] }
      if env.writeOk then
        if env.commitAOk then
          ({ tr with commits := tr.commits + 1 }, .ok ())
        else
          ({ tr with rollbacks := tr.rollbacks + 1 }, .error .commitErr)
      else
        ({ tr with rollbacks := tr.rollbacks + 1 }, .error .writeErr)
    else
      let tr := { tr with removeTxnCalls := tr.removeTxnCalls + 1 }
      if env.writeOk then
        if env.commitAOk then
          ({ tr with commits := tr.commits + 1 }, .ok ())
        else
          ({ tr with rollbacks := tr.rollbacks + 1 }, .error .commitErr)
      else
        ({ tr with rollbacks := tr.rollbacks + 1 }, .error .writeErr)
  else
    ({ tr with
        commits := tr.commits + 1
        outOfOrder := tr.outOfOrder + 1
        delayMeasured := some (jsDateSub r.lastevent n.generated) }, .ok ())

/-- Branches B and C of `__handler` (`dbResponse` falsy), entered after
the transaction has been dealt with. -/
def branchBC (env : Env) (n : Notification) (tr : Trace) :
    Trace × Except HErr Unit :=
  if pendingOrRunning n.state then
    let tr := { tr with apiCalls := tr.apiCalls + 1 }
    match env.api with
    | .error .notFound =>
      ({ tr with apiLag := tr.apiLag + 1 }, .error .apiNotFound)
    | .error .other =>
      ({ tr with reported := tr.reported + 1 }, .error .apiOther)
    | .ok inst =>
      let wt := (parseKeyName inst.keyName).2
      if truthy wt ∧ missingTags inst then
        let tr := { tr with tagCalls := tr.tagCalls + 1 }
        if env.taggerOk then upsertStep env n inst tr
        else (tr, .error .taggerErr)
      else
        upsertStep env n inst tr
  else
    let tr := { tr with removeCalls := tr.removeCalls + 1 }
    if env.removeOk then (tr, .ok ()) else (tr, .error .removeErr)

/-- The trace after step 1 of `__handler` (`state.logCloudWatchEvent`):
a failure of the audit write is caught and reported, nothing else
happens before the transaction begins. -/
def auditTrace (env : Env) : Trace :=
  let tr : Trace := {}
  if env.logEventOk then tr else { tr with reported := tr.reported + 1 }

/-- `CloudWatchEventListener.__handler`, faithfully including the
control flow after a failed `listInstances`: the `catch` rolls back and
logs but does not return, so `dbResponse` stays undefined, the
`if (!dbResponse)` commit runs on the rolled-back transaction, and
execution falls through to branches B/C. -/
def handler (env : Env) (n : Notification) : Trace × Except HErr Unit :=
  let tr := auditTrace env
  if env.lookupOk then
    match env.record with
    | some r =>
      if r.id = n.id ∧ r.region = n.region then
        branchA env n r tr
      else
        (tr, .error .assertErr)
    | none =>
      let tr := { tr with commits := tr.commits + 1 }
      branchBC env n tr
  else
    let tr := { tr with rollbacks := tr.rollbacks + 1 }
    let tr := { tr with commits := tr.commits + 1 }
    branchBC env n tr

/-! ### Concrete sample data used to instantiate the theorems -/

/-- A descriptor whose key name is `prov:wt` and which has no tags. -/
def sampleInstance : EC2Instance :=
  { keyName := "prov:wt"
    instanceType := "m3.xlarge"
    spotInstanceRequestId := some "sir-1"
    az := "us-east-1a"
    imageId := "ami-1"
    launchTime := 100
    tags := none }

/-- A database row for instance `i-1` in `us-east-1` with a given
`lastevent`. -/
def sampleRecord (le : Option Int) : InstanceRecord :=
  { id := "i-1"
    region := "us-east-1"
    workertype := some "wt"
    instancetype := "m3.xlarge"
    az := "us-east-1a"
    imageId := "ami-1"
    srid := none
    launched := 100
    state := "pending"
    lastevent := le }

/-- A notification for instance `i-1` in `us-east-1`. -/
def sampleNotification (st : String) (g : Int) : Notification :=
  { region := "us-east-1", id := "i-1", state := st, generated := g }

/-- A fault-free environment configured with `keyPrefix = "prov:"`
(so the configured provisioner id is `prov`) and no database row. -/
def baseEnv : Env :=
  { keyPrefix := "prov:"
    record := none
    logEventOk := true
    lookupOk := true
    writeOk := true
    commitAOk := true
    api := .ok sampleInstance
    taggerOk := true
    upsertOk := true
    removeOk := true }

end EC2Manager

namespace EC2Manager

/-! ### Helper lemmas about the colon split -/

theorem splitOnColon_no_colon (k : List Char) (h : ':' ∉ k) :
    splitOnColon k = [k] := by
  induction k with
  | nil => rfl
  | cons c rest ih =>
    have hc : c ≠ ':' := fun hc => h (hc ▸ List.mem_cons_self c rest)
    have hrest : ':' ∉ rest := fun hm => h (List.mem_cons_of_mem c hm)
    simp [splitOnColon, hc, ih hrest]

theorem splitOnColon_append (p rest : List Char) (h : ':' ∉ p) :
    splitOnColon (p ++ ':' :: rest) = p :: splitOnColon rest := by
  induction p with
  | nil => simp [splitOnColon]
  | cons c cs ih =>
    have hc : c ≠ ':' := fun hc => h (hc ▸ List.mem_cons_self c cs)
    have hcs : ':' ∉ cs := fun hm => h (List.mem_cons_of_mem c hm)
    simp [splitOnColon, hc, ih hcs]

theorem splitOnColon_ne_nil (k : List Char) : splitOnColon k ≠ [] := by
  cases k with
  | nil => simp [splitOnColon]
  | cons c rest =>
    simp only [splitOnColon]
    split
    · simp
    · split
      · simp
      · simp

end EC2Manager

namespace EC2Manager

/-! ### Helper lemmas about the handler's trace -/

theorem branchBC_updateCalls (env : Env) (n : Notification) (tr : Trace) :
    (branchBC env n tr).1.updateCalls = tr.updateCalls := by
  unfold branchBC upsertStep
  repeat' split
  all_goals dsimp only
  all_goals try split_ifs
  all_goals simp

end EC2Manager

namespace EC2Manager

theorem auditTrace_updateCalls (env : Env) : (auditTrace env).updateCalls = [] := by
  unfold auditTrace
  cases env.logEventOk <;> rfl

theorem handler_updateCalls (env : Env) (n : Notification) :
    (handler env n).1.updateCalls = [] ∨
    (∃ r, env.record = some r ∧ newerEvent r.lastevent n.generated ∧
      pendingOrRunning n.state = true ∧
      (handler env n).1.updateCalls = [(n.state, n.generated)]) := by
  unfold handler
  dsimp only
  by_cases hl : env.lookupOk = true
  · rw [if_pos hl]
    rcases hr : env.record with _ | r
    · dsimp only
      left
      rw [branchBC_updateCalls]
      exact auditTrace_updateCalls env
    · dsimp only
      by_cases hid : r.id = n.id ∧ r.region = n.region
      · rw [if_pos hid]
        unfold branchA
        by_cases hnew : newerEvent r.lastevent n.generated
        · rw [if_pos hnew]
          by_cases hpr : pendingOrRunning n.state = true
          · rw [if_pos hpr]
            dsimp only
            right
            refine ⟨r, rfl, hnew, hpr, ?_⟩
            split_ifs <;> simp [auditTrace_updateCalls env]
          · rw [if_neg hpr]
            dsimp only
            left
            split_ifs <;> simp [auditTrace_updateCalls env]
        · rw [if_neg hnew]
          left
          exact auditTrace_updateCalls env
      · rw [if_neg hid]
        left
        exact auditTrace_updateCalls env
  · rw [if_neg hl]
    left
    rw [branchBC_updateCalls]
    exact auditTrace_updateCalls env

end EC2Manager

namespace EC2Manager

/-! ### Claim theorems -/

/-- Claim C1: the claim says that when the transactional lookup fails the
handler rolls back and stops with no further StateStore write, commit,
provider API call or tagging call.  The code instead falls through after
the rollback: on a concrete run whose `listInstances` fails (pending
notification, provider lookup succeeding with an owned key name), the
handler also commits the rolled-back transaction, calls the provider
API, calls the tagger, upserts a record, and returns without error. -/
theorem cwe_lookup_failure_continues :
    (handler { baseEnv with lookupOk := false } (sampleNotification "pending" 500)).1.rollbacks = 1 ∧
    (handler { baseEnv with lookupOk := false } (sampleNotification "pending" 500)).1.commits = 1 ∧
    (handler { baseEnv with lookupOk := false } (sampleNotification "pending" 500)).1.apiCalls = 1 ∧
    (handler { baseEnv with lookupOk := false } (sampleNotification "pending" 500)).1.tagCalls = 1 ∧
    (handler { baseEnv with lookupOk := false } (sampleNotification "pending" 500)).1.upsertCalls ≠ [] ∧
    (handler { baseEnv with lookupOk := false } (sampleNotification "pending" 500)).2 = .ok () := by
  decide

/-- Claim C4: the claim says exactly one of commit/rollback is called on
every control-flow path.  On the path where `listInstances` fails (here
with a terminated notification) the code calls `rollbackTransaction` and
then also `commitTransaction` on the same transaction — two finalizer
calls, not one — and then still issues the transactionless delete. -/
theorem cwe_transaction_double_finalize :
    (handler { baseEnv with lookupOk := false } (sampleNotification "terminated" 500)).1.rollbacks = 1 ∧
    (handler { baseEnv with lookupOk := false } (sampleNotification "terminated" 500)).1.commits = 1 ∧
    (handler { baseEnv with lookupOk := false } (sampleNotification "terminated" 500)).1.commits +
      (handler { baseEnv with lookupOk := false } (sampleNotification "terminated" 500)).1.rollbacks ≠ 1 ∧
    (handler { baseEnv with lookupOk := false } (sampleNotification "terminated" 500)).1.removeCalls = 1 := by
  decide

/-- Claim C2: a notification for an existing record with
`generatedAt ≤ lastEventAt` never mutates the record: no update, delete
or upsert call is made, the transaction is committed (and not rolled
back), the out-of-order counter is incremented, the delay
`lastEventAt - generatedAt` is measured, and the handler returns without
error; moreover every `updateInstanceState` call the handler ever makes
writes a `lastevent` strictly greater than the record's current one, so
`lastevent` is monotonically non-decreasing across applied updates. -/
theorem cwe_stale_notification_dropped :
    (∀ (env : Env) (n : Notification) (r : InstanceRecord) (t : Int),
      env.lookupOk = true → env.record = some r → r.id = n.id → r.region = n.region →
      r.lastevent = some t → n.generated ≤ t →
      (handler env n).1.updateCalls = [] ∧
      (handler env n).1.removeTxnCalls = 0 ∧
      (handler env n).1.removeCalls = 0 ∧
      (handler env n).1.upsertCalls = [] ∧
      (handler env n).1.commits = 1 ∧
      (handler env n).1.rollbacks = 0 ∧
      (handler env n).1.outOfOrder = 1 ∧
      (handler env n).1.delayMeasured = some (t - n.generated) ∧
      (handler env n).2 = .ok ()) ∧
    (∀ (env : Env) (n : Notification) (r : InstanceRecord) (t : Int),
      env.record = some r → r.lastevent = some t →
      ∀ p ∈ (handler env n).1.updateCalls, t < p.2) := by
  constructor
  · intro env n r t hl hr hid hreg hle hge
    have hnew : ¬ newerEvent (some t) n.generated := not_lt.mpr hge
    cases hlog : env.logEventOk <;>
      simp [handler, auditTrace, branchA, hl, hr, hid, hreg, hle, hnew, hlog, jsDateSub]
  · intro env n r t hr hle p hp
    rcases handler_updateCalls env n with h | ⟨r', hr', hnew, _, heq⟩
    · rw [h] at hp
      exact absurd hp (List.not_mem_nil p)
    · rw [hr] at hr'
      obtain rfl : r = r' := by injection hr'
      rw [hle] at hnew
      rw [heq] at hp
      have hp2 : p = (n.state, n.generated) := List.mem_singleton.mp hp
      rw [hp2]
      exact hnew

/-- Claim C2 witness: on a concrete stale delivery (record's
`lastevent = 500`, notification generated at `400`) the handler commits
without writing and measures a delay of `100`; and a concrete applied
update (record at `400`, notification at `600`) writes `600 > 400`. -/
theorem cwe_stale_notification_dropped_witness :
    (handler { baseEnv with record := some (sampleRecord (some 500)) }
        (sampleNotification "running" 400)).1.outOfOrder = 1 ∧
    (handler { baseEnv with record := some (sampleRecord (some 500)) }
        (sampleNotification "running" 400)).1.updateCalls = [] ∧
    (400 : Int) < (("running", (600 : Int)) : String × Int).2 := by
  refine ⟨?_, ?_, ?_⟩
  · exact (cwe_stale_notification_dropped.1 _ _ (sampleRecord (some 500)) 500
      rfl rfl rfl rfl rfl (by decide)).2.2.2.2.2.2.1
  · exact (cwe_stale_notification_dropped.1 _ _ (sampleRecord (some 500)) 500
      rfl rfl rfl rfl rfl (by decide)).1
  · exact cwe_stale_notification_dropped.2
      { baseEnv with record := some (sampleRecord (some 400)) }
      (sampleNotification "running" 600) (sampleRecord (some 400)) 400
      rfl rfl ("running", 600) (by decide)

end EC2Manager

namespace EC2Manager

/-- Claim C3: for an existing record and a strictly newer notification,
a pending/running state updates the record's state and `lastevent` in
place and commits; any other state deletes the record and commits; a
failure of the write (or of the commit that follows it) rolls the
transaction back and re-raises the error. -/
theorem cwe_newer_event_applied
    (env : Env) (n : Notification) (r : InstanceRecord) (t : Int)
    (hl : env.lookupOk = true) (hr : env.record = some r)
    (hid : r.id = n.id) (hreg : r.region = n.region)
    (hle : r.lastevent = some t) (hgt : t < n.generated) :
    (pendingOrRunning n.state = true → env.writeOk = true → env.commitAOk = true →
      (handler env n).1.updateCalls = [(n.state, n.generated)] ∧
      (handler env n).1.removeTxnCalls = 0 ∧
      (handler env n).1.commits = 1 ∧
      (handler env n).1.rollbacks = 0 ∧
      (handler env n).2 = .ok ()) ∧
    (pendingOrRunning n.state = false → env.writeOk = true → env.commitAOk = true →
      (handler env n).1.removeTxnCalls = 1 ∧
      (handler env n).1.updateCalls = [] ∧
      (handler env n).1.commits = 1 ∧
      (handler env n).1.rollbacks = 0 ∧
      (handler env n).2 = .ok ()) ∧
    (env.writeOk = false →
      (handler env n).1.commits = 0 ∧
      (handler env n).1.rollbacks = 1 ∧
      (handler env n).2 = .error .writeErr) ∧
    (env.writeOk = true → env.commitAOk = false →
      (handler env n).1.commits = 0 ∧
      (handler env n).1.rollbacks = 1 ∧
      (handler env n).2 = .error .commitErr) := by
  have hnew : newerEvent (some t) n.generated := hgt
  refine ⟨?_, ?_, ?_, ?_⟩ <;> intro h1 <;> try intro h2
  · intro h3
    cases hlog : env.logEventOk <;>
      simp [handler, auditTrace, branchA, hl, hr, hid, hreg, hle, hnew, hlog, h1, h2, h3]
  · intro h3
    cases hlog : env.logEventOk <;>
      simp [handler, auditTrace, branchA, hl, hr, hid, hreg, hle, hnew, hlog, h1, h2, h3]
  · cases hlog : env.logEventOk <;>
      cases hpr : pendingOrRunning n.state <;>
        simp [handler, auditTrace, branchA, hl, hr, hid, hreg, hle, hnew, hlog, h1, hpr]
  · cases hlog : env.logEventOk <;>
      cases hpr : pendingOrRunning n.state <;>
        simp [handler, auditTrace, branchA, hl, hr, hid, hreg, hle, hnew, hlog, h1, h2, hpr]

/-- Claim C3 witness: a concrete newer running notification updates the
record and commits; with write failure injected on a terminated
notification the transaction is rolled back and the error re-raised. -/
theorem cwe_newer_event_applied_witness :
    (handler { baseEnv with record := some (sampleRecord (some 400)) }
        (sampleNotification "running" 600)).1.updateCalls = [("running", 600)] ∧
    (handler { baseEnv with record := some (sampleRecord (some 400)), writeOk := false }
        (sampleNotification "terminated" 600)).2 = .error .writeErr := by
  constructor
  · exact ((cwe_newer_event_applied _ _ (sampleRecord (some 400)) 400
      rfl rfl rfl rfl rfl (by decide)).1 (by decide) rfl rfl).1
  · exact ((cwe_newer_event_applied _ _ (sampleRecord (some 400)) 400
      rfl rfl rfl rfl rfl (by decide)).2.2.1 rfl).2.2

/-- Claim C10: an existing record whose `lastevent` is NULL always takes
the out-of-order path, whatever the notification's `generatedAt`: the
transaction is committed with no update, delete or upsert, the
out-of-order counter is incremented, and no error is raised — such a
record is never mutated through the record-exists branch. -/
theorem cwe_null_lastevent_untouched
    (env : Env) (n : Notification) (r : InstanceRecord)
    (hl : env.lookupOk = true) (hr : env.record = some r)
    (hid : r.id = n.id) (hreg : r.region = n.region)
    (hle : r.lastevent = none) :
    (handler env n).1.updateCalls = [] ∧
    (handler env n).1.removeTxnCalls = 0 ∧
    (handler env n).1.removeCalls = 0 ∧
    (handler env n).1.upsertCalls = [] ∧
    (handler env n).1.commits = 1 ∧
    (handler env n).1.rollbacks = 0 ∧
    (handler env n).1.outOfOrder = 1 ∧
    (handler env n).2 = .ok () := by
  have hnew : ¬ newerEvent (none : Option Int) n.generated := id
  cases hlog : env.logEventOk <;>
    simp [handler, auditTrace, branchA, hl, hr, hid, hreg, hle, hnew, hlog]

/-- Claim C10 witness: a record with NULL `lastevent` and a very new
terminated notification still only commits and counts out-of-order. -/
theorem cwe_null_lastevent_untouched_witness :
    (handler { baseEnv with record := some (sampleRecord none) }
        (sampleNotification "terminated" 999999)).1.outOfOrder = 1 ∧
    (handler { baseEnv with record := some (sampleRecord none) }
        (sampleNotification "terminated" 999999)).1.removeTxnCalls = 0 := by
  constructor
  · exact (cwe_null_lastevent_untouched _ _ (sampleRecord none)
      rfl rfl rfl rfl rfl).2.2.2.2.2.2.1
  · exact (cwe_null_lastevent_untouched _ _ (sampleRecord none)
      rfl rfl rfl rfl rfl).2.1

end EC2Manager

namespace EC2Manager

/-- Claim C5 counterexample: the claim says the key name is split on its
first separator only, so for `"a:b:c"` the workerType would be
`"b:c"`; the code's `split(':')` splits on every colon and destructures
the first two fields, yielding workerType `"b"`. -/
theorem cwe_keyname_split_counterexample :
    (parseKeyName "a:b:c").2 = some "b" ∧ (parseKeyName "a:b:c").2 ≠ some "b:c" := by
  decide

/-- Claim C5 amended: `provisionerId` and `workerType` are the first two
fields of splitting the key name on every separator, so for a key name
with more than one separator the workerType is the text between the
first and second separators (not everything after the first); a key
name with no separator yields the whole name as `provisionerId` and no
workerType. -/
theorem cwe_keyname_split_amended :
    (∀ p w r : List Char, ':' ∉ p → ':' ∉ w →
      parseKeyName (String.mk (p ++ ':' :: (w ++ ':' :: r))) =
        (some (String.mk p), some (String.mk w))) ∧
    (∀ k : List Char, ':' ∉ k →
      parseKeyName (String.mk k) = (some (String.mk k), none)) := by
  constructor
  · intro p w r hp hw
    unfold parseKeyName
    have h1 : (String.mk (p ++ ':' :: (w ++ ':' :: r))).data = p ++ ':' :: (w ++ ':' :: r) := rfl
    rw [h1, splitOnColon_append p _ hp, splitOnColon_append w _ hw]
    simp
  · intro k hk
    unfold parseKeyName
    have h1 : (String.mk k).data = k := rfl
    rw [h1, splitOnColon_no_colon k hk]
    simp

/-- Claim C5 amended witness: instantiated at the key names `a:b:c` and
`x`. -/
theorem cwe_keyname_split_amended_witness :
    parseKeyName (String.mk (['a'] ++ ':' :: (['b'] ++ ':' :: ['c']))) =
      (some (String.mk ['a']), some (String.mk ['b'])) ∧
    parseKeyName (String.mk ['x']) = (some (String.mk ['x']), none) :=
  ⟨cwe_keyname_split_amended.1 ['a'] ['b'] ['c'] (by decide) (by decide),
   cwe_keyname_split_amended.2 ['x'] (by decide)⟩

end EC2Manager

namespace EC2Manager

/-- Claim C6: in the no-record pending/running branch (with the tagging
call succeeding when issued), `upsertInstance` is called if and only if
the extracted workerType is truthy and the extracted provisionerId
equals the configured provisioner identity; when called it is called
once with exactly the opts built from the descriptor, whose `lastevent`
is the notification's `generatedAt`; a key name with no separator or a
mismatching provisionerId never creates a record. -/
theorem cwe_ownership_upsert_filter
    (env : Env) (n : Notification) (inst : EC2Instance)
    (hl : env.lookupOk = true) (hr : env.record = none)
    (hpr : pendingOrRunning n.state = true) (hapi : env.api = .ok inst)
    (htag : env.taggerOk = true) :
    ((handler env n).1.upsertCalls ≠ [] ↔
      truthy (parseKeyName inst.keyName).2 = true ∧
        (parseKeyName inst.keyName).1 = some (provisionerIdOf env.keyPrefix)) ∧
    (truthy (parseKeyName inst.keyName).2 = true →
      (parseKeyName inst.keyName).1 = some (provisionerIdOf env.keyPrefix) →
      (handler env n).1.upsertCalls = [upsertOpts n inst]) ∧
    (upsertOpts n inst).lastevent = n.generated := by
  cases hlog : env.logEventOk <;>
    by_cases hwt : truthy (parseKeyName inst.keyName).2 = true <;>
      by_cases hmt : missingTags inst = true <;>
        by_cases hpid : (parseKeyName inst.keyName).1 = some (provisionerIdOf env.keyPrefix) <;>
          cases hup : env.upsertOk <;>
            simp [handler, auditTrace, branchBC, upsertStep, upsertOpts, hl, hr, hpr,
              hapi, htag, hlog, hwt, hmt, hpid, hup]

/-- Claim C6 witness: a descriptor with key name `prov:wt` under
configured prefix `prov:` yields exactly one upsert with
`lastevent = 500`. -/
theorem cwe_ownership_upsert_filter_witness :
    (handler baseEnv (sampleNotification "pending" 500)).1.upsertCalls =
      [upsertOpts (sampleNotification "pending" 500) sampleInstance] :=
  (cwe_ownership_upsert_filter baseEnv (sampleNotification "pending" 500) sampleInstance
    rfl rfl (by decide) rfl rfl).2.1 (by decide) (by decide)

/-- Claim C7: when the provider lookup fails in the no-record
pending/running branch, a not-found error increments the api-lag
counter, is not reported, and is re-raised; any other error is reported
and re-raised; in both cases no record is upserted. -/
theorem cwe_api_failure_handling
    (env : Env) (n : Notification)
    (hl : env.lookupOk = true) (hr : env.record = none)
    (hpr : pendingOrRunning n.state = true) (hlog : env.logEventOk = true) :
    (env.api = .error .notFound →
      (handler env n).1.apiLag = 1 ∧
      (handler env n).1.reported = 0 ∧
      (handler env n).2 = .error .apiNotFound ∧
      (handler env n).1.upsertCalls = []) ∧
    (env.api = .error .other →
      (handler env n).1.apiLag = 0 ∧
      (handler env n).1.reported = 1 ∧
      (handler env n).2 = .error .apiOther ∧
      (handler env n).1.upsertCalls = []) := by
  constructor <;> intro hapi <;>
    simp [handler, auditTrace, branchBC, hl, hr, hpr, hlog, hapi]

/-- Claim C7 witness: instantiated with a not-found failure and with an
other failure on a concrete pending notification. -/
theorem cwe_api_failure_handling_witness :
    (handler { baseEnv with api := .error .notFound }
        (sampleNotification "pending" 500)).1.apiLag = 1 ∧
    (handler { baseEnv with api := .error .other }
        (sampleNotification "pending" 500)).1.reported = 1 := by
  constructor
  · exact ((cwe_api_failure_handling _ _ rfl rfl (by decide) rfl).1 rfl).1
  · exact ((cwe_api_failure_handling _ _ rfl rfl (by decide) rfl).2 rfl).2.1

end EC2Manager

namespace EC2Manager

/-- Claim C8 counterexample: the claim says a tagging failure does not
prevent the upsert nor cause handle to fail.  On a concrete run (owned
instance with no Owner tag, tagger failing) the tagger is invoked, the
handler raises the tagging error, and no upsert is performed. -/
theorem cwe_tagging_failure_counterexample :
    (handler { baseEnv with taggerOk := false } (sampleNotification "pending" 500)).1.tagCalls = 1 ∧
    (handler { baseEnv with taggerOk := false } (sampleNotification "pending" 500)).2 = .error .taggerErr ∧
    (handler { baseEnv with taggerOk := false } (sampleNotification "pending" 500)).1.upsertCalls = [] := by
  decide

/-- Claim C8 amended: in the no-record pending/running branch the Tagger
is invoked exactly when the extracted workerType is truthy and the
descriptor carries no Owner tag; the tagging call is not guarded, so a
tagging failure propagates out of the handler and prevents the upsert. -/
theorem cwe_tagging_invocation
    (env : Env) (n : Notification) (inst : EC2Instance)
    (hl : env.lookupOk = true) (hr : env.record = none)
    (hpr : pendingOrRunning n.state = true) (hapi : env.api = .ok inst) :
    ((handler env n).1.tagCalls = 1 ↔
      truthy (parseKeyName inst.keyName).2 = true ∧ missingTags inst = true) ∧
    (truthy (parseKeyName inst.keyName).2 = true → missingTags inst = true →
      env.taggerOk = false →
      (handler env n).2 = .error .taggerErr ∧
      (handler env n).1.upsertCalls = []) := by
  cases hlog : env.logEventOk <;>
    by_cases hwt : truthy (parseKeyName inst.keyName).2 = true <;>
      by_cases hmt : missingTags inst = true <;>
        by_cases hpid : (parseKeyName inst.keyName).1 = some (provisionerIdOf env.keyPrefix) <;>
          cases htag : env.taggerOk <;>
            cases hup : env.upsertOk <;>
              simp [handler, auditTrace, branchBC, upsertStep, upsertOpts, hl, hr, hpr,
                hapi, hlog, hwt, hmt, hpid, htag, hup]

/-- Claim C8 amended witness: with the sample untagged owned descriptor
the tagger is invoked; with the tagger failing the handler raises. -/
theorem cwe_tagging_invocation_witness :
    (handler baseEnv (sampleNotification "pending" 500)).1.tagCalls = 1 ∧
    (handler { baseEnv with taggerOk := false } (sampleNotification "running" 700)).2 =
      .error .taggerErr := by
  constructor
  · exact (cwe_tagging_invocation baseEnv (sampleNotification "pending" 500) sampleInstance
      rfl rfl (by decide) rfl).1.mpr ⟨by decide, by decide⟩
  · exact ((cwe_tagging_invocation _ (sampleNotification "running" 700) sampleInstance
      rfl rfl (by decide) rfl).2 (by decide) (by decide) rfl).1

/-- Claim C9: a notification with no existing record and a state that is
neither pending nor running unconditionally issues the transactionless
`removeInstance`, makes no provider API call, creates no record, makes
no tagging call, commits the read transaction, and (when the delete
succeeds) raises no error. -/
theorem cwe_terminal_without_record
    (env : Env) (n : Notification)
    (hl : env.lookupOk = true) (hr : env.record = none)
    (hpr : pendingOrRunning n.state = false) (hrm : env.removeOk = true) :
    (handler env n).1.removeCalls = 1 ∧
    (handler env n).1.apiCalls = 0 ∧
    (handler env n).1.upsertCalls = [] ∧
    (handler env n).1.tagCalls = 0 ∧
    (handler env n).1.updateCalls = [] ∧
    (handler env n).1.commits = 1 ∧
    (handler env n).2 = .ok () := by
  cases hlog : env.logEventOk <;>
    simp [handler, auditTrace, branchBC, hl, hr, hpr, hrm, hlog]

/-- Claim C9 witness: a concrete terminated notification with no record
deletes blindly and succeeds with no API call. -/
theorem cwe_terminal_without_record_witness :
    (handler baseEnv (sampleNotification "terminated" 500)).1.removeCalls = 1 ∧
    (handler baseEnv (sampleNotification "terminated" 500)).1.apiCalls = 0 ∧
    (handler baseEnv (sampleNotification "terminated" 500)).2 = .ok () := by
  refine ⟨?_, ?_, ?_⟩
  · exact (cwe_terminal_without_record baseEnv _ rfl rfl (by decide) rfl).1
  · exact (cwe_terminal_without_record baseEnv _ rfl rfl (by decide) rfl).2.1
  · exact (cwe_terminal_without_record baseEnv _ rfl rfl (by decide) rfl).2.2.2.2.2.2

end EC2Manager
